import Mathlib

/-!
Verification of the compilation-orchestration and bytecode-emission core of
`src/Andastra/Parsing/Resource/Formats/NCS/nwnnsscomp_reverse_engineered.cpp`.

The C++ source is a reverse-engineered, heavily annotated reconstruction of the
`nwnnsscomp.exe` script compiler.  The development below gives a shallow
embedding of the functions the claims are about, keeping the source's names:

* `nwnnsscomp_expand_bytecode_buffer` — the growable instruction buffer
  (`FUN_00405409`): capacity check, power-of-two growth loop, `malloc`,
  `memmove` of the used records, `free` of the old store.
* `nwnnsscomp_compile_core` (`FUN_00404bb8`) — the per-file orchestrator.
  Its branch structure depends only on a handful of observations (allocation
  successes, the two error counts, the include flags, the write result),
  so it is embedded as a function of an environment record collecting those
  observations.  The decompiled function can fall through to
  `return compilationResult` with `compilationResult` never assigned; that
  path is represented by returning `none`.
* `nwnnsscomp_write_bytecode_to_file` (`FUN_0040d608`) — the NCS serializer:
  entry-point gate, 512KB buffer, 9-byte magic, 4-byte placeholder,
  size patch, `fopen`/`fwrite`.  The in-memory output buffer is a byte map
  `Nat → Nat`; its uninitialized contents are an arbitrary `junk` map.
  In the source the serialization of globals / function table / instruction
  stream between the header write and the size computation is elided
  (comment-only), so the write cursor stays at byte 13 and every artifact is
  the 13-byte header; the embedding reproduces exactly that.
* `nwnnsscomp_get_filename_from_path` (`FUN_0041bd24`) — separator scan.
* the include-key case normalization step of `nwnnsscomp_generate_bytecode`
  (registry presence check + conditional `strlwr`).
* `nwnnsscomp_destroy_compiler` (`FUN_00401ecb`) — instance destruction,
  modelled as a transformer of the global state that also reports the
  `free` calls it makes.
* `nwnnsscomp_finalize_main_script` (`FUN_0040d411`) together with its
  helpers `nwnnsscomp_allocate_buffer` (`FUN_00404398`) and
  `nwnnsscomp_finalize_symbol_table` (`FUN_00405024`).

Machine integers of the source are modelled as `Nat` (unsigned) or `Int`
(signed) — no arithmetic in the embedded fragments can overflow on the
reachable inputs, and where a comparison is signed in the source
(`(int)param2 < 0x82`) the embedding uses `Int`.
-/

set_option autoImplicit false

/-! ### Instruction buffer (`nwnnsscomp_expand_bytecode_buffer`) -/

/-- Fixed per-instruction stride: `uint instructionSize = 0x24` (36 bytes). -/
def instructionSize : Nat := 0x24

/-- Instruction-buffer structure: backing store pointer at `+0x0` (its record
contents modelled as the list of records that have been stored), used count at
`+0x4`, capacity in records at `+0x8`. -/
structure NssBytecodeBuffer where
  store : List Int
  usedCount : Nat
  capacity : Nat
deriving DecidableEq, Repr

/-- The growth loop of `FUN_00405409`:
`newCapacity = 1; while (newCapacity < requiredCapacity) newCapacity <<= 1;`.
The `newCapacity = 0` guard is unreachable from the entry value 1 (doubling a
positive number keeps it positive); it only makes the recursion well-founded. -/
def growCapacityLoop (newCapacity requiredCapacity : Nat) : Nat :=
  if h0 : newCapacity = 0 then 0
  else if hlt : newCapacity < requiredCapacity then
    growCapacityLoop (newCapacity * 2) requiredCapacity
  else newCapacity
termination_by requiredCapacity - newCapacity
decreasing_by omega

/-- `nwnnsscomp_expand_bytecode_buffer` (`FUN_00405409`).  `allocOk` is the
outcome of the `malloc(newCapacity * 0x24)` call.  Returns the `int` result
(1 = success, 0 = allocation failure) and the buffer state after the call.
On growth the source `memmove`s `usedCount * 0x24` bytes of records into the
fresh store (slots beyond `usedCount` stay uninitialized), frees the old store,
and installs the new store pointer and capacity; `usedCount` is not touched. -/
def nwnnsscomp_expand_bytecode_buffer (allocOk : Bool) (buffer : NssBytecodeBuffer)
    (requiredCapacity : Nat) : Nat × NssBytecodeBuffer :=
  if requiredCapacity ≤ buffer.capacity then
    (1, buffer)
  else
    let newCapacity := growCapacityLoop 1 requiredCapacity
    if allocOk then
      let moved := buffer.store.take buffer.usedCount
      (1, { store := moved, usedCount := buffer.usedCount, capacity := newCapacity })
    else
      (0, buffer)

/-! ### Compilation orchestrator (`nwnnsscomp_compile_core`) -/

/-- The observations `nwnnsscomp_compile_core` branches on, in program order:
the `malloc(52)` for the instruction structure, the
`nwnnsscomp_create_compiler` result, the first-pass
`nwnnsscomp_get_error_count`, the `isIncludeFile` parameter (byte at
`ebp+0x24`), the registry flag read by `nwnnsscomp_is_include_processed`
(byte at `+0x2ee`; `nwnnsscomp_is_include_file` reads the same byte), the
`malloc(52)` for the output compiler, the second-pass error count, and the
`nwnnsscomp_write_bytecode_to_file` result. -/
structure CompileEnv where
  instrAllocOk : Bool
  compilerCreateOk : Bool
  errorCount1 : Nat
  isIncludeFile : Bool
  includeAlreadyProcessed : Bool
  outputAllocOk : Bool
  errorCount2 : Nat
  writeOk : Bool
deriving DecidableEq, Repr

/-- Outcome of one `nwnnsscomp_compile_core` run: the returned result code
(`none` when the function reaches `return compilationResult` with the local
`compilationResult` never assigned), and whether `nwnnsscomp_finalize_main_script`
and `nwnnsscomp_write_bytecode_to_file` were called on the way. -/
structure CompileOutcome where
  ret : Option Int
  finalizeMainCalled : Bool
  serializerCalled : Bool
deriving DecidableEq, Repr

/-- `nwnnsscomp_compile_core` (`FUN_00404bb8`), branch for branch:
creation failure returns 0; with `errorCount > 0` an include file that is
__not__ yet in the registry (`!nwnnsscomp_is_include_file(...)`) returns 2;
otherwise a second output compiler is allocated, bytecode is regenerated, and
only a clean second pass reaches `nwnnsscomp_finalize_main_script` and the
serializer (returning 1 on write success, 0 on write failure); a second pass
with errors returns 0.  All remaining paths — in particular
`errorCount == 0` on the first pass, and a failed `malloc` for the output
compiler — fall through to `return compilationResult`, which is uninitialized. -/
def nwnnsscomp_compile_core (env : CompileEnv) : CompileOutcome :=
  if !env.instrAllocOk || !env.compilerCreateOk then
    { ret := some 0, finalizeMainCalled := false, serializerCalled := false }
  else if 0 < env.errorCount1 then
    if env.isIncludeFile && !env.includeAlreadyProcessed then
      { ret := some 2, finalizeMainCalled := false, serializerCalled := false }
    else if env.outputAllocOk then
      if env.errorCount2 = 0 then
        if env.writeOk then
          { ret := some 1, finalizeMainCalled := true, serializerCalled := true }
        else
          { ret := some 0, finalizeMainCalled := true, serializerCalled := true }
      else
        { ret := some 0, finalizeMainCalled := false, serializerCalled := false }
    else
      { ret := none, finalizeMainCalled := false, serializerCalled := false }
  else
    { ret := none, finalizeMainCalled := false, serializerCalled := false }

/-! ### NCS serializer (`nwnnsscomp_write_bytecode_to_file`) -/

/-- One function symbol of the compiled unit: its name and the numeric return
type tag checked at `+0x10` (1 = `void`, 6 = `int`, per the source's checks). -/
structure FuncSym where
  name : String
  returnType : Nat
deriving DecidableEq, Repr

/-- Modelled from the spec: `nwnnsscomp_find_function` is a stub in the source
(it returns `NULL` with the note that the implementation depends on the symbol
table structure, which is not part of the repository).  The spec says the
serializer locates a function by name in the compiled unit, so the model looks
the name up in the unit's function table. -/
def nwnnsscomp_find_function (functions : List FuncSym) (target : String) :
    Option FuncSym :=
  functions.find? (fun f => f.name = target)

/-- The two entry-point gate failures reported by the serializer. -/
inductive WriteError where
  | noEntryPoint
  | wrongReturnType
deriving DecidableEq, Repr

/-- Store one byte in the output byte map. -/
def storeByte (buf : Nat → Nat) (addr val : Nat) : Nat → Nat :=
  fun i => if i = addr then val else buf i

/-- Store a run of bytes starting at `addr` (the `memcpy` of the magic). -/
def storeBytes (buf : Nat → Nat) (addr : Nat) : List Nat → (Nat → Nat)
  | [] => buf
  | v :: rest => storeBytes (storeByte buf addr v) (addr + 1) rest

/-- Store a 32-bit value little-endian (x86 `mov dword ptr [mem], reg`). -/
def storeLE32 (buf : Nat → Nat) (addr n : Nat) : Nat → Nat :=
  storeBytes buf addr [n % 256, n / 256 % 256, n / 65536 % 256, n / 16777216 % 256]

/-- Read four bytes of an artifact as a little-endian integer. -/
def readLE32 (l : List Nat) (addr : Nat) : Nat :=
  l.getD addr 0 + 256 * l.getD (addr + 1) 0 + 65536 * l.getD (addr + 2) 0 +
    16777216 * l.getD (addr + 3) 0

/-- The 9 magic bytes `"NCS V1.0B"` written at offsets 0–8. -/
def ncsMagic : List Nat := [78, 67, 83, 32, 86, 49, 46, 48, 66]

/-- Inputs of one `nwnnsscomp_write_bytecode_to_file` call: the unit's function
table (consulted by the entry-point gate), the `fopen` outcome, and the
uninitialized contents of the freshly allocated 512KB output buffer. -/
structure WriteState where
  functions : List FuncSym
  fopenOk : Bool
  junk : Nat → Nat

/-- Observable outcome of one `nwnnsscomp_write_bytecode_to_file` call: the
returned `uint`, the reported gate error, whether the 512KB output buffer was
allocated, the final in-memory buffer (after the size patch; `none` when the
gate failed before `operator new(0x80000)`), and the bytes written to the
output file (`none` when no file was produced). -/
structure WriteResult where
  ret : Nat
  err : Option WriteError
  bufferAllocated : Bool
  memBuf : Option (Nat → Nat)
  fileWritten : Option (List Nat)

/-- A gate failure: `nwnnsscomp_report_error` then `return 0`, before the
buffer allocation and before `fopen`. -/
def ncsGateFail (e : WriteError) : WriteResult :=
  { ret := 0, err := some e, bufferAllocated := false, memBuf := none,
    fileWritten := none }

/-- The output buffer contents after the header writes and the size patch:
`memcpy` the 9-byte magic to offsets 0–8, zero the placeholder bytes 9–12
(`writePtr[9] = 0; … writePtr[12] = 0`), then — with the write cursor at 13
and `bytecodeSize = cursor - base = 13` — patch the size with
`*((uint*)(bytecodeBuffer + 13)) = bytecodeSize`, i.e. bytes 13–16
little-endian. -/
def ncsHeaderPatched (junk : Nat → Nat) : Nat → Nat :=
  storeLE32
    (storeByte (storeByte (storeByte (storeByte
      (storeBytes junk 0 ncsMagic) 9 0) 10 0) 11 0) 12 0)
    13 13

/-- The serialization tail of `nwnnsscomp_write_bytecode_to_file`, entered once
the entry-point gate has passed: allocate the 512KB buffer, write the header
and size patch (`ncsHeaderPatched`; the globals / function-table / instruction
serialization between header write and size computation is elided in the
source, so the write cursor stays at 13 and `bytecodeSize = 13`), then `fopen`
and `fwrite` the first `bytecodeSize` bytes. -/
def ncsSerializeAndWrite (st : WriteState) : WriteResult :=
  let bytecodeSize := 13
  let b3 := ncsHeaderPatched st.junk
  if st.fopenOk then
    { ret := 1, err := none, bufferAllocated := true, memBuf := some b3,
      fileWritten := some ((List.range bytecodeSize).map b3) }
  else
    { ret := 0, err := none, bufferAllocated := true, memBuf := some b3,
      fileWritten := none }

/-- `nwnnsscomp_write_bytecode_to_file` (`FUN_0040d608`).  Entry-point gate:
look up `main`; if present its return type must be 1 (`void`), otherwise look
up `StartingConditional`, which must exist and have return type 6 (`int`).
Gate failures return 0 before the output buffer is allocated or the output
file is opened.  On a passed gate the serialization tail runs. -/
def nwnnsscomp_write_bytecode_to_file (st : WriteState) : WriteResult :=
  match nwnnsscomp_find_function st.functions ("main") with
  | some mainFunction =>
    if mainFunction.returnType ≠ 1 then ncsGateFail WriteError.wrongReturnType
    else ncsSerializeAndWrite st
  | none =>
    match nwnnsscomp_find_function st.functions ("StartingConditional") with
    | none => ncsGateFail WriteError.noEntryPoint
    | some sc =>
      if sc.returnType ≠ 6 then ncsGateFail WriteError.wrongReturnType
      else ncsSerializeAndWrite st

/-! ### Path utility (`nwnnsscomp_get_filename_from_path`) -/

/-- The three separator characters the scan recognizes: `'\\'`, `'/'`, `':'`. -/
def isSep (c : Char) : Bool :=
  c = '\\' || c = '/' || c = ':'

/-- The scan loop of `FUN_0041bd24`: walk the characters; at index `i` holding
a separator, set the filename start to `i + 1`; return the final start. -/
def getFilenameScan : List Char → Nat → Nat → Nat
  | [], _, filenameStart => filenameStart
  | c :: rest, i, filenameStart =>
    getFilenameScan rest (i + 1) (if isSep c then i + 1 else filenameStart)

/-- `nwnnsscomp_get_filename_from_path` (`FUN_0041bd24`): `NULL` maps to
`NULL`; otherwise the returned pointer is `path + k` where `k` is the scan
result — a suffix of the input string. -/
def nwnnsscomp_get_filename_from_path (path : Option (List Char)) :
    Option (List Char) :=
  match path with
  | none => none
  | some s => some (s.drop (getFilenameScan s 0 0))

/-- Index of the last separator character of a string, if any — the
specification-side characterization of the scan loop. -/
def lastSepIdx : List Char → Option Nat
  | [] => none
  | c :: rest =>
    match lastSepIdx rest with
    | some j => some (j + 1)
    | none => if isSep c then some 0 else none

/-! ### Include-key case normalization (`nwnnsscomp_generate_bytecode`) -/

/-- The include registry header at compiler offset `+0x314`; its field at
`+0x4` is the registered-entry pointer returned by
`nwnnsscomp_get_include_registry_entry` (`FUN_0041b2e4`). -/
structure IncludeRegistry where
  entry : Option Nat
deriving DecidableEq, Repr

/-- `nwnnsscomp_get_include_registry_entry` (`FUN_0041b2e4`): load the entry
pointer at registry offset `+0x4`. -/
def nwnnsscomp_get_include_registry_entry (registry : IncludeRegistry) :
    Option Nat :=
  registry.entry

/-- CRT `strlwr` in the default locale: ASCII lowercasing of every character. -/
def strlwr (s : List Char) : List Char :=
  s.map Char.toLower

/-- The case-normalization step of `nwnnsscomp_generate_bytecode`
(addresses `0x004049b3`–`0x004049ce`): read the registry entry; only when it
is absent, `strlwr` the derived include key.  The result is the key that the
subsequent `nwnnsscomp_update_include_context` call registers. -/
def includeKeyRegistration (registry : IncludeRegistry)
    (includeFilename : List Char) : List Char :=
  match nwnnsscomp_get_include_registry_entry registry with
  | none => strlwr includeFilename
  | some _ => includeFilename

/-! ### Compiler-instance destruction (`nwnnsscomp_destroy_compiler`) -/

/-- The fields of a compiler instance that `nwnnsscomp_destroy_compiler`
inspects: the source-buffer pointer at `+0x20` (`none` = `NULL`) and the
debug-mode ownership flag at `+0x30` stored at creation. -/
structure DestroyedCompiler where
  sourceBufferStart : Option Nat
  debugModeEnabled : Bool
deriving DecidableEq, Repr

/-- The process-wide state read by the destructor: `g_currentCompiler`
(`DAT_00434198`), `none` when the global is empty/NULL. -/
structure CompilerGlobals where
  gCurrentCompiler : Option DestroyedCompiler
deriving DecidableEq, Repr

/-- A `free` call the destructor performs. -/
inductive FreeEvent where
  | sourceBuffer (ptr : Nat)
  | compilerObject
deriving DecidableEq, Repr

/-- `nwnnsscomp_destroy_compiler` (`FUN_00401ecb`): read `g_currentCompiler`;
if empty, return immediately (no action).  Otherwise free the source buffer
only when it is non-null __and__ the debug flag is set, clean up the include
registry, free the instance record, and clear `g_currentCompiler`.  Returns
the new global state and the list of `free` calls made. -/
def nwnnsscomp_destroy_compiler (g : CompilerGlobals) :
    CompilerGlobals × List FreeEvent :=
  match g.gCurrentCompiler with
  | none => (g, [])
  | some compiler =>
    let srcFrees :=
      match compiler.sourceBufferStart with
      | some p => if compiler.debugModeEnabled then [FreeEvent.sourceBuffer p] else []
      | none => []
    ({ gCurrentCompiler := none }, srcFrees ++ [FreeEvent.compilerObject])

/-! ### Finalization (`nwnnsscomp_finalize_main_script`) -/

/-- A working-region buffer structure as initialized by
`nwnnsscomp_allocate_buffer`: pointer at `+0x0`, count at `+0x4`, capacity at
`+0x8`, declared byte size at `+0xc`, and the 0xa0 bytes from `+0x10` that the
`memset` clears. -/
structure NssWorkBuffer where
  ptr : Nat
  count : Nat
  capacity : Nat
  size : Nat
  aux : List Nat
deriving DecidableEq, Repr

/-- `nwnnsscomp_allocate_buffer` (`FUN_00404398`): zero the pointer, count and
capacity fields, record the requested byte size at `+0xc`, and
`memset(buffer + 0x10, 0, 0xa0)`. -/
def nwnnsscomp_allocate_buffer (bufferSize : Nat) : NssWorkBuffer :=
  { ptr := 0, count := 0, capacity := 0, size := bufferSize,
    aux := List.replicate 0xa0 0 }

/-- A symbol-table segment: the three dword fields at `+0x0`, `+0x4`, `+0x8`. -/
structure NssSymbolTableSeg where
  f0 : Int
  f4 : Int
  f8 : Int
deriving DecidableEq, Repr

/-- `nwnnsscomp_finalize_symbol_table` (`FUN_00405024`): zero all three
fields of the segment. -/
def nwnnsscomp_finalize_symbol_table (_t : NssSymbolTableSeg) : NssSymbolTableSeg :=
  { f0 := 0, f4 := 0, f8 := 0 }

/-- The compiler-object fields touched by `nwnnsscomp_finalize_main_script`:
the working regions at `+0x28` and `+0x11c`, the symbol-table segments at
`+0xf8`, `+0x104`, `+0x110`, `+0x1d0`, the dword at `+0xec`, the stored
parameters at `+0x0` and `+0x1dc`, and the eleven byte-wide flag slots
`+0x1e0` … `+0x1ea`. -/
structure FinalizeCompilerState where
  constantBuffer : NssWorkBuffer
  funcTableBuffer : NssWorkBuffer
  symSeg0F8 : NssSymbolTableSeg
  symSeg104 : NssSymbolTableSeg
  symSeg110 : NssSymbolTableSeg
  symSeg1D0 : NssSymbolTableSeg
  flagEC : Int
  field00 : Int
  field1DC : Int
  slot1E0 : Int
  slot1E1 : Int
  slot1E2 : Int
  slot1E3 : Int
  slot1E4 : Int
  slot1E5 : Int
  slot1E6 : Int
  slot1E7 : Int
  slot1E8 : Int
  slot1E9 : Int
  slot1EA : Int
deriving DecidableEq, Repr

/-- `nwnnsscomp_finalize_main_script` (`FUN_0040d411`): initialize the two
0x40000-byte working regions at `+0x28` and `+0x11c`, reset the four
symbol-table segments, clear `+0xec`, store `param1` at `+0x0` and `param2` at
`+0x1dc`, then stamp the flag slots: `+0x1e0` receives `param3` when the
signed comparison `(int)param2 < 0x82` holds and the constant 1 otherwise;
slots `+0x1e1` … `+0x1ea` always receive `param3`. -/
def nwnnsscomp_finalize_main_script (c : FinalizeCompilerState)
    (param1 param2 param3 : Int) : FinalizeCompilerState :=
  { c with
    constantBuffer := nwnnsscomp_allocate_buffer 0x40000,
    funcTableBuffer := nwnnsscomp_allocate_buffer 0x40000,
    symSeg0F8 := nwnnsscomp_finalize_symbol_table c.symSeg0F8,
    symSeg104 := nwnnsscomp_finalize_symbol_table c.symSeg104,
    symSeg110 := nwnnsscomp_finalize_symbol_table c.symSeg110,
    symSeg1D0 := nwnnsscomp_finalize_symbol_table c.symSeg1D0,
    flagEC := 0,
    field00 := param1,
    field1DC := param2,
    slot1E0 := if param2 < 0x82 then param3 else 1,
    slot1E1 := param3,
    slot1E2 := param3,
    slot1E3 := param3,
    slot1E4 := param3,
    slot1E5 := param3,
    slot1E6 := param3,
    slot1E7 := param3,
    slot1E8 := param3,
    slot1E9 := param3,
    slot1EA := param3 }

/-- A sample pre-finalization compiler state with distinctive junk in every
field, used to evaluate `nwnnsscomp_finalize_main_script` concretely. -/
def finalizeSample : FinalizeCompilerState :=
  { constantBuffer := ⟨1, 2, 3, 4, [5]⟩,
    funcTableBuffer := ⟨6, 7, 8, 9, [10]⟩,
    symSeg0F8 := ⟨11, 12, 13⟩,
    symSeg104 := ⟨14, 15, 16⟩,
    symSeg110 := ⟨17, 18, 19⟩,
    symSeg1D0 := ⟨20, 21, 22⟩,
    flagEC := 23,
    field00 := 24,
    field1DC := 25,
    slot1E0 := 26,
    slot1E1 := 27,
    slot1E2 := 28,
    slot1E3 := 29,
    slot1E4 := 30,
    slot1E5 := 31,
    slot1E6 := 32,
    slot1E7 := 33,
    slot1E8 := 34,
    slot1E9 := 35,
    slot1EA := 36 }

/-! ## Helper lemmas -/

theorem growCapacityLoop_of_stop (c r : Nat) (h0 : c ≠ 0) (h : ¬ c < r) :
    growCapacityLoop c r = c := by
  unfold growCapacityLoop
  simp [h0, h]

theorem growCapacityLoop_of_step (c r : Nat) (h0 : c ≠ 0) (h : c < r) :
    growCapacityLoop c r = growCapacityLoop (c * 2) r := by
  conv_lhs => unfold growCapacityLoop
  simp [h0, h]

theorem growCapacityLoop_spec :
    ∀ n c r, r ≤ c + n → 0 < c → (∃ k, c = 2 ^ k) →
      (∃ k, growCapacityLoop c r = 2 ^ k) ∧
      r ≤ growCapacityLoop c r ∧
      c ≤ growCapacityLoop c r ∧
      (∀ j, r ≤ 2 ^ j → c ≤ 2 ^ j → growCapacityLoop c r ≤ 2 ^ j) := by
  intro n
  induction n with
  | zero =>
    intro c r hn hc hp
    have hstop : ¬ c < r := by omega
    rw [growCapacityLoop_of_stop c r (by omega) hstop]
    exact ⟨hp, by omega, le_refl c, fun j _ hcj => hcj⟩
  | succ n ih =>
    intro c r hn hc hp
    by_cases hlt : c < r
    · rw [growCapacityLoop_of_step c r (by omega) hlt]
      obtain ⟨k, hk⟩ := hp
      have hp2 : c * 2 = 2 ^ (k + 1) := by rw [hk]; ring
      have h2 := ih (c * 2) r (by omega) (by omega) ⟨k + 1, hp2⟩
      obtain ⟨hpow, hge, hcle, hmin⟩ := h2
      refine ⟨hpow, hge, le_trans (by omega) hcle, ?_⟩
      intro j hrj hcj
      apply hmin j hrj
      have hklt : (2 : Nat) ^ k < 2 ^ j := by omega
      have hkj : k < j := (Nat.pow_lt_pow_iff_right (by norm_num)).mp hklt
      calc c * 2 = 2 ^ (k + 1) := hp2
        _ ≤ 2 ^ j := Nat.pow_le_pow_right (by norm_num) hkj
    · rw [growCapacityLoop_of_stop c r (by omega) hlt]
      exact ⟨hp, by omega, le_refl c, fun j _ hcj => hcj⟩

/-! ## Claims about the instruction buffer -/

/-- Claim C4: for every instruction buffer and every required count, growth is
a no-op success when the required count is at most the current capacity;
otherwise, on allocation success, the new capacity is the smallest power of
two that is at least the required count (doubling starting from 1), the used
count is unchanged, and the previously stored records (the first `usedCount`
records) are preserved intact and in order in the new backing store by the
move. -/
theorem nwnnsscomp_expand_bytecode_buffer_growth :
    ∀ (buffer : NssBytecodeBuffer) (requiredCapacity : Nat) (allocOk : Bool),
      (requiredCapacity ≤ buffer.capacity →
        nwnnsscomp_expand_bytecode_buffer allocOk buffer requiredCapacity =
          (1, buffer)) ∧
      (buffer.capacity < requiredCapacity → allocOk = true →
        (nwnnsscomp_expand_bytecode_buffer allocOk buffer requiredCapacity).1 = 1 ∧
        (∃ k, (nwnnsscomp_expand_bytecode_buffer allocOk buffer
          requiredCapacity).2.capacity = 2 ^ k) ∧
        requiredCapacity ≤ (nwnnsscomp_expand_bytecode_buffer allocOk buffer
          requiredCapacity).2.capacity ∧
        (∀ j, requiredCapacity ≤ 2 ^ j →
          (nwnnsscomp_expand_bytecode_buffer allocOk buffer
            requiredCapacity).2.capacity ≤ 2 ^ j) ∧
        (nwnnsscomp_expand_bytecode_buffer allocOk buffer
          requiredCapacity).2.usedCount = buffer.usedCount ∧
        (nwnnsscomp_expand_bytecode_buffer allocOk buffer
          requiredCapacity).2.store.take buffer.usedCount =
          buffer.store.take buffer.usedCount) := by
  intro buffer requiredCapacity allocOk
  constructor
  · intro hle
    unfold nwnnsscomp_expand_bytecode_buffer
    rw [if_pos hle]
  · intro hlt hOk
    subst hOk
    have hspec := growCapacityLoop_spec requiredCapacity 1 requiredCapacity
      (by omega) (by omega) ⟨0, rfl⟩
    obtain ⟨hpow, hge, _, hmin⟩ := hspec
    have hres : nwnnsscomp_expand_bytecode_buffer true buffer requiredCapacity =
        (1, { store := buffer.store.take buffer.usedCount,
              usedCount := buffer.usedCount,
              capacity := growCapacityLoop 1 requiredCapacity }) := by
      unfold nwnnsscomp_expand_bytecode_buffer
      rw [if_neg (by omega)]
      rfl
    rw [hres]
    exact ⟨rfl, hpow, hge, fun j hj => hmin j hj Nat.one_le_two_pow, rfl,
      by simp [List.take_take]⟩

/-- Witness for C4: a buffer of capacity 2 holding records `[7, 8]`; a request
for 2 slots is a no-op, a request for 5 slots grows to capacity 8 and keeps
both records. -/
theorem nwnnsscomp_expand_bytecode_buffer_growth_witness :
    (nwnnsscomp_expand_bytecode_buffer true ⟨[7, 8], 2, 2⟩ 2 =
      (1, ⟨[7, 8], 2, 2⟩)) ∧
    ((nwnnsscomp_expand_bytecode_buffer true ⟨[7, 8], 2, 2⟩ 5).1 = 1 ∧
      (∃ k, (nwnnsscomp_expand_bytecode_buffer true ⟨[7, 8], 2, 2⟩ 5).2.capacity =
        2 ^ k) ∧
      5 ≤ (nwnnsscomp_expand_bytecode_buffer true ⟨[7, 8], 2, 2⟩ 5).2.capacity ∧
      (∀ j, 5 ≤ 2 ^ j →
        (nwnnsscomp_expand_bytecode_buffer true ⟨[7, 8], 2, 2⟩ 5).2.capacity ≤
          2 ^ j) ∧
      (nwnnsscomp_expand_bytecode_buffer true ⟨[7, 8], 2, 2⟩ 5).2.usedCount =
        (⟨[7, 8], 2, 2⟩ : NssBytecodeBuffer).usedCount ∧
      (nwnnsscomp_expand_bytecode_buffer true ⟨[7, 8], 2, 2⟩ 5).2.store.take 2 =
        ([7, 8] : List Int).take 2) :=
  ⟨(nwnnsscomp_expand_bytecode_buffer_growth ⟨[7, 8], 2, 2⟩ 2 true).1 (by decide),
   (nwnnsscomp_expand_bytecode_buffer_growth ⟨[7, 8], 2, 2⟩ 5 true).2 (by decide) rfl⟩

/-- Claim C9: growth failure is atomic — when expansion is needed but the
allocation of the new backing store fails, the function returns 0 and the
buffer (store, used count, capacity) is exactly as before the call. -/
theorem nwnnsscomp_expand_bytecode_buffer_failure_atomic :
    ∀ (buffer : NssBytecodeBuffer) (requiredCapacity : Nat),
      buffer.capacity < requiredCapacity →
      nwnnsscomp_expand_bytecode_buffer false buffer requiredCapacity =
        (0, buffer) := by
  intro buffer requiredCapacity hlt
  unfold nwnnsscomp_expand_bytecode_buffer
  rw [if_neg (by omega)]
  simp

/-- Witness for C9: an empty buffer of capacity 0, a request for 1 slot, a
failing allocation. -/
theorem nwnnsscomp_expand_bytecode_buffer_failure_atomic_witness :
    nwnnsscomp_expand_bytecode_buffer false ⟨[], 0, 0⟩ 1 = (0, ⟨[], 0, 0⟩) :=
  nwnnsscomp_expand_bytecode_buffer_failure_atomic ⟨[], 0, 0⟩ 1 (by decide)

/-! ## Claims about the compilation orchestrator -/

/-- Claim C1 (divergence evidence): the claim says that a main unit whose
first compilation pass reports zero parse errors proceeds to `MainClean`
(calling `nwnnsscomp_finalize_main_script` and then the NCS serializer, and
returning 1 or 0 according to the write result).  In the source, the
finalize/serialize block sits entirely inside the `errorCount > 0` branch, so
a clean first pass skips it and falls through to the trailing
`return compilationResult` with `compilationResult` never assigned: no
finalization, no serializer call, and an indeterminate result code. -/
theorem nwnnsscomp_compile_core_clean_first_pass_skips_serializer :
    ∀ env : CompileEnv, env.instrAllocOk = true → env.compilerCreateOk = true →
      env.errorCount1 = 0 →
      nwnnsscomp_compile_core env =
        { ret := none, finalizeMainCalled := false, serializerCalled := false } := by
  intro env h1 h2 h3
  simp [nwnnsscomp_compile_core, h1, h2, h3]

/-- Witness for C1: successful allocations, zero first-pass errors. -/
theorem nwnnsscomp_compile_core_clean_first_pass_skips_serializer_witness :
    nwnnsscomp_compile_core ⟨true, true, 0, false, false, true, 0, true⟩ =
      { ret := none, finalizeMainCalled := false, serializerCalled := false } :=
  nwnnsscomp_compile_core_clean_first_pass_skips_serializer
    ⟨true, true, 0, false, false, true, 0, true⟩ rfl rfl rfl

/-- Counterexample for C5: an include file with first-pass errors that the
registry reports as __already processed__ does not return result code 2 — the
source jumps to the second-pass/output-compiler path instead (here the second
pass still has errors, so the run returns 0). -/
theorem nwnnsscomp_compile_core_processed_include_not_code2 :
    (nwnnsscomp_compile_core ⟨true, true, 1, true, true, true, 1, true⟩).ret =
      some 0 ∧
    (nwnnsscomp_compile_core ⟨true, true, 1, true, true, true, 1, true⟩).ret ≠
      some 2 := by
  decide

/-- Claim C5 (amended): if the error count after the first pass is greater
than zero, the unit is an include file, and the include registry reports that
this include was __not__ already processed, then `nwnnsscomp_compile_core`
returns result code 2 without calling `nwnnsscomp_finalize_main_script` or
the serializer. -/
theorem nwnnsscomp_compile_core_new_include_returns_two :
    ∀ env : CompileEnv, env.instrAllocOk = true → env.compilerCreateOk = true →
      0 < env.errorCount1 → env.isIncludeFile = true →
      env.includeAlreadyProcessed = false →
      nwnnsscomp_compile_core env =
        { ret := some 2, finalizeMainCalled := false, serializerCalled := false } := by
  intro env h1 h2 h3 h4 h5
  simp [nwnnsscomp_compile_core, h1, h2, h3, h4, h5]

/-- Witness for C5 (amended): three first-pass errors on a fresh include. -/
theorem nwnnsscomp_compile_core_new_include_returns_two_witness :
    nwnnsscomp_compile_core ⟨true, true, 3, true, false, true, 0, true⟩ =
      { ret := some 2, finalizeMainCalled := false, serializerCalled := false } :=
  nwnnsscomp_compile_core_new_include_returns_two
    ⟨true, true, 3, true, false, true, 0, true⟩ rfl rfl (by decide) rfl rfl

/-! ## Claims about the NCS serializer -/

theorem ncsHeaderPatched_artifact (junk : Nat → Nat) :
    (List.range 13).map (ncsHeaderPatched junk) = ncsMagic ++ [0, 0, 0, 0] := by
  rfl

theorem ncsHeaderPatched_patch_site (junk : Nat → Nat) :
    (ncsHeaderPatched junk 13, ncsHeaderPatched junk 14, ncsHeaderPatched junk 15,
      ncsHeaderPatched junk 16) = (13, 0, 0, 0) := by
  rfl

/-- Claim C2 (divergence evidence): every artifact produced by the serializer
does begin with the 9-byte magic `"NCS V1.0B"`, and bytes 9–12 are written as
a 4-byte size placeholder — but the size patch is applied at byte offset 13
(bytes 13–16 of the in-memory buffer, outside the artifact), so the
placeholder bytes 9–12 stay zero and reading them as a little-endian integer
gives 0, not the artifact's total byte length (13). -/
theorem nwnnsscomp_write_size_patch_misses_placeholder :
    ∀ (st : WriteState) (m : FuncSym),
      nwnnsscomp_find_function st.functions ("main") = some m →
      m.returnType = 1 → st.fopenOk = true →
      (nwnnsscomp_write_bytecode_to_file st).fileWritten =
        some (ncsMagic ++ [0, 0, 0, 0]) ∧
      (∀ a, (nwnnsscomp_write_bytecode_to_file st).fileWritten = some a →
        a.take 9 = ncsMagic ∧ a.length = 13 ∧ readLE32 a 9 = 0 ∧
        readLE32 a 9 ≠ a.length) ∧
      ((nwnnsscomp_write_bytecode_to_file st).memBuf.map
        (fun f => (f 13, f 14, f 15, f 16))) = some (13, 0, 0, 0) := by
  intro st m hm hr hopen
  have hw : nwnnsscomp_write_bytecode_to_file st = ncsSerializeAndWrite st := by
    simp only [nwnnsscomp_write_bytecode_to_file, hm]
    rw [if_neg (not_not_intro hr)]
  have hser : ncsSerializeAndWrite st =
      { ret := 1, err := none, bufferAllocated := true,
        memBuf := some (ncsHeaderPatched st.junk),
        fileWritten := some ((List.range 13).map (ncsHeaderPatched st.junk)) } := by
    unfold ncsSerializeAndWrite
    rw [hopen]
    rfl
  rw [hw, hser]
  refine ⟨by rw [ncsHeaderPatched_artifact], ?_, ?_⟩
  · intro a ha
    have ha2 : (List.range 13).map (ncsHeaderPatched st.junk) = a :=
      Option.some_injective _ ha
    rw [ncsHeaderPatched_artifact] at ha2
    subst ha2
    exact ⟨rfl, rfl, rfl, by decide⟩
  · exact congrArg some (ncsHeaderPatched_patch_site st.junk)

/-- Witness for C2: a unit with `void main`, successful `fopen`, buffer junk
byte 204. -/
theorem nwnnsscomp_write_size_patch_misses_placeholder_witness :
    (nwnnsscomp_write_bytecode_to_file
      ⟨[⟨"main", 1⟩], true, fun _ => 204⟩).fileWritten =
        some (ncsMagic ++ [0, 0, 0, 0]) ∧
    (ncsMagic ++ [0, 0, 0, 0]).take 9 = ncsMagic ∧
    (ncsMagic ++ [0, 0, 0, 0]).length = 13 ∧
    readLE32 (ncsMagic ++ [0, 0, 0, 0]) 9 = 0 ∧
    readLE32 (ncsMagic ++ [0, 0, 0, 0]) 9 ≠ (ncsMagic ++ [0, 0, 0, 0]).length ∧
    ((nwnnsscomp_write_bytecode_to_file
      ⟨[⟨"main", 1⟩], true, fun _ => 204⟩).memBuf.map
        (fun f => (f 13, f 14, f 15, f 16))) = some (13, 0, 0, 0) := by
  obtain ⟨h1, h2, h3⟩ := nwnnsscomp_write_size_patch_misses_placeholder
    ⟨[⟨"main", 1⟩], true, fun _ => 204⟩ ⟨"main", 1⟩ rfl rfl rfl
  obtain ⟨ha, hb, hc, hd⟩ := h2 (ncsMagic ++ [0, 0, 0, 0]) h1
  exact ⟨h1, ha, hb, hc, hd, h3⟩

/-- Claim C3: the serializer's entry-point gate.  A unit with neither a
function named `main` nor one named `StartingConditional` fails with
`noEntryPoint`; a unit whose `main` has a return type other than `void` (tag
1), or whose only `StartingConditional` has a return type other than `int`
(tag 6), fails with `wrongReturnType`.  Every such failure returns 0 before
the 512KB output buffer is allocated and before the output file is opened, so
no file is written. -/
theorem nwnnsscomp_write_bytecode_entry_gate :
    ∀ st : WriteState,
      (nwnnsscomp_find_function st.functions ("main") = none →
        nwnnsscomp_find_function st.functions ("StartingConditional") = none →
        nwnnsscomp_write_bytecode_to_file st =
          { ret := 0, err := some WriteError.noEntryPoint,
            bufferAllocated := false, memBuf := none, fileWritten := none }) ∧
      (∀ m : FuncSym, nwnnsscomp_find_function st.functions ("main") = some m →
        m.returnType ≠ 1 →
        nwnnsscomp_write_bytecode_to_file st =
          { ret := 0, err := some WriteError.wrongReturnType,
            bufferAllocated := false, memBuf := none, fileWritten := none }) ∧
      (∀ sc : FuncSym, nwnnsscomp_find_function st.functions ("main") = none →
        nwnnsscomp_find_function st.functions ("StartingConditional") = some sc →
        sc.returnType ≠ 6 →
        nwnnsscomp_write_bytecode_to_file st =
          { ret := 0, err := some WriteError.wrongReturnType,
            bufferAllocated := false, memBuf := none, fileWritten := none }) := by
  intro st
  refine ⟨?_, ?_, ?_⟩
  · intro hm hsc
    simp only [nwnnsscomp_write_bytecode_to_file, hm, hsc]
    rfl
  · intro m hm hr
    simp only [nwnnsscomp_write_bytecode_to_file, hm]
    rw [if_pos hr]
    rfl
  · intro sc hm hsc hr
    simp only [nwnnsscomp_write_bytecode_to_file, hm, hsc]
    rw [if_pos hr]
    rfl

/-- Witness for C3: an empty function table (no entry point), a unit whose
`main` returns `int` (tag 6), and a unit whose only `StartingConditional`
returns `void` (tag 1). -/
theorem nwnnsscomp_write_bytecode_entry_gate_witness :
    nwnnsscomp_write_bytecode_to_file ⟨[], true, fun _ => 0⟩ =
      { ret := 0, err := some WriteError.noEntryPoint,
        bufferAllocated := false, memBuf := none, fileWritten := none } ∧
    nwnnsscomp_write_bytecode_to_file ⟨[⟨"main", 6⟩], true, fun _ => 0⟩ =
      { ret := 0, err := some WriteError.wrongReturnType,
        bufferAllocated := false, memBuf := none, fileWritten := none } ∧
    nwnnsscomp_write_bytecode_to_file
        ⟨[⟨"StartingConditional", 1⟩], true, fun _ => 0⟩ =
      { ret := 0, err := some WriteError.wrongReturnType,
        bufferAllocated := false, memBuf := none, fileWritten := none } :=
  ⟨(nwnnsscomp_write_bytecode_entry_gate ⟨[], true, fun _ => 0⟩).1 rfl rfl,
   (nwnnsscomp_write_bytecode_entry_gate
     ⟨[⟨"main", 6⟩], true, fun _ => 0⟩).2.1 ⟨"main", 6⟩ rfl (by decide),
   (nwnnsscomp_write_bytecode_entry_gate
     ⟨[⟨"StartingConditional", 1⟩], true, fun _ => 0⟩).2.2 ⟨"StartingConditional", 1⟩
     rfl rfl (by decide)⟩

/-! ## Claim about the path utility -/

theorem getFilenameScan_eq (s : List Char) :
    ∀ i fs, getFilenameScan s i fs =
      match lastSepIdx s with
      | none => fs
      | some j => i + j + 1 := by
  induction s with
  | nil => intro i fs; rfl
  | cons c rest ih =>
    intro i fs
    show getFilenameScan rest (i + 1) (if isSep c then i + 1 else fs) = _
    rw [ih (i + 1) (if isSep c then i + 1 else fs)]
    cases h : lastSepIdx rest with
    | none =>
      simp only [lastSepIdx, h]
      by_cases hc : isSep c <;> simp [hc]
    | some j =>
      simp only [lastSepIdx, h]
      show i + 1 + j + 1 = i + (j + 1) + 1
      omega

theorem lastSepIdx_none_no_sep (s : List Char) (h : lastSepIdx s = none) :
    s.all (fun c => !(isSep c)) = true := by
  induction s with
  | nil => rfl
  | cons c rest ih =>
    simp only [lastSepIdx] at h
    cases hr : lastSepIdx rest with
    | some j => rw [hr] at h; simp at h
    | none =>
      rw [hr] at h
      by_cases hc : isSep c
      · rw [if_pos hc] at h; simp at h
      · simp only [List.all_cons, Bool.and_eq_true]
        exact ⟨by simp [hc], ih hr⟩

theorem lastSepIdx_some_spec (s : List Char) :
    ∀ j, lastSepIdx s = some j →
      j + 1 ≤ s.length ∧
      (∃ t c, s.take (j + 1) = t ++ [c] ∧ isSep c = true) ∧
      (s.drop (j + 1)).all (fun c => !(isSep c)) = true := by
  induction s with
  | nil => intro j h; simp [lastSepIdx] at h
  | cons c rest ih =>
    intro j h
    simp only [lastSepIdx] at h
    cases hr : lastSepIdx rest with
    | some j0 =>
      rw [hr] at h
      have hj : j = j0 + 1 := by
        simpa using h.symm
      subst hj
      obtain ⟨hlen, ⟨t, c0, ht, hc0⟩, hall⟩ := ih j0 hr
      refine ⟨by simpa using Nat.succ_le_succ hlen, ⟨c :: t, c0, ?_, hc0⟩, ?_⟩
      · show c :: rest.take (j0 + 1) = (c :: t) ++ [c0]
        rw [ht]
        rfl
      · show (rest.drop (j0 + 1)).all (fun x => !(isSep x)) = true
        exact hall
    | none =>
      rw [hr] at h
      by_cases hc : isSep c
      · rw [if_pos hc] at h
        have hj : j = 0 := by simpa using h.symm
        subst hj
        refine ⟨by simp, ⟨[], c, rfl, hc⟩, ?_⟩
        show rest.all (fun x => !(isSep x)) = true
        exact lastSepIdx_none_no_sep rest hr
      · rw [if_neg hc] at h
        simp at h

/-- Claim C10: `nwnnsscomp_get_filename_from_path` maps a null path to null;
a non-null path is mapped to the suffix of that same string starting just
after the last occurrence of `'\\'`, `'/'` or `':'` (the whole string when no
separator occurs): the result is a suffix of the input, it contains no
separator, and the consumed prefix is empty or ends with a separator. -/
theorem nwnnsscomp_get_filename_from_path_spec :
    nwnnsscomp_get_filename_from_path none = none ∧
    ∀ s : List Char, ∃ k,
      nwnnsscomp_get_filename_from_path (some s) = some (s.drop k) ∧
      List.IsSuffix (s.drop k) s ∧
      (s.drop k).all (fun c => !(isSep c)) = true ∧
      (k = 0 ∨ ∃ t c, s.take k = t ++ [c] ∧ isSep c = true) := by
  refine ⟨rfl, ?_⟩
  intro s
  cases h : lastSepIdx s with
  | none =>
    have hk : getFilenameScan s 0 0 = 0 := by
      rw [getFilenameScan_eq s 0 0, h]
    refine ⟨0, ?_, List.drop_suffix _ _, ?_, Or.inl rfl⟩
    · show some (s.drop (getFilenameScan s 0 0)) = some (s.drop 0)
      rw [hk]
    · simpa using lastSepIdx_none_no_sep s h
  | some j =>
    have hk : getFilenameScan s 0 0 = j + 1 := by
      rw [getFilenameScan_eq s 0 0, h]
      show 0 + j + 1 = j + 1
      omega
    obtain ⟨hlen, hsep, hall⟩ := lastSepIdx_some_spec s j h
    refine ⟨j + 1, ?_, List.drop_suffix _ _, hall, Or.inr hsep⟩
    show some (s.drop (getFilenameScan s 0 0)) = some (s.drop (j + 1))
    rw [hk]

/-! ## Claim about include-key case normalization -/

/-- Claim C6: include-key case normalization is asymmetric.  When the include
registry reports no registered entry, the derived include key is lowercased
(`strlwr`) before it is registered; when an entry is already registered, the
key keeps its original casing and is not lowercased. -/
theorem includeKeyRegistration_asymmetric :
    ∀ (registry : IncludeRegistry) (includeFilename : List Char),
      (nwnnsscomp_get_include_registry_entry registry = none →
        includeKeyRegistration registry includeFilename =
          strlwr includeFilename) ∧
      (∀ e, nwnnsscomp_get_include_registry_entry registry = some e →
        includeKeyRegistration registry includeFilename = includeFilename) := by
  intro registry key
  constructor
  · intro h
    unfold includeKeyRegistration
    rw [h]
  · intro e h
    unfold includeKeyRegistration
    rw [h]

/-- Witness for C6: the key `"FOo"` is lowercased to `"foo"` when the registry
is empty, and kept verbatim when an entry is already registered. -/
theorem includeKeyRegistration_asymmetric_witness :
    includeKeyRegistration ⟨none⟩ ['F', 'O', 'o'] = ['f', 'o', 'o'] ∧
    includeKeyRegistration ⟨some 5⟩ ['F', 'O', 'o'] = ['F', 'O', 'o'] := by
  constructor
  · have h := (includeKeyRegistration_asymmetric ⟨none⟩ ['F', 'O', 'o']).1 rfl
    rw [h]
    decide
  · exact (includeKeyRegistration_asymmetric ⟨some 5⟩ ['F', 'O', 'o']).2 5 rfl

/-! ## Claim about compiler-instance destruction -/

/-- Claim C7: `nwnnsscomp_destroy_compiler` frees the source buffer if and
only if the debug-mode flag stored at creation is set and the source-buffer
pointer is non-null; it always leaves the current-instance global empty; and
a second destroy in succession finds the global empty and does nothing (no
`free` at all), so the call is idempotent and no double-free occurs. -/
theorem nwnnsscomp_destroy_compiler_spec :
    ∀ g : CompilerGlobals,
      (nwnnsscomp_destroy_compiler g).1.gCurrentCompiler = none ∧
      (∀ compiler, g.gCurrentCompiler = some compiler →
        ((∃ p, FreeEvent.sourceBuffer p ∈ (nwnnsscomp_destroy_compiler g).2) ↔
          (compiler.debugModeEnabled = true ∧
            compiler.sourceBufferStart ≠ none))) ∧
      nwnnsscomp_destroy_compiler (nwnnsscomp_destroy_compiler g).1 =
        ((nwnnsscomp_destroy_compiler g).1, []) := by
  intro g
  cases hg : g.gCurrentCompiler with
  | none =>
    refine ⟨?_, ?_, ?_⟩
    · simp [nwnnsscomp_destroy_compiler, hg]
    · intro compiler hc
      exact absurd hc (by simp)
    · simp [nwnnsscomp_destroy_compiler, hg]
  | some compiler =>
    have hd : nwnnsscomp_destroy_compiler g =
        ({ gCurrentCompiler := none },
          (match compiler.sourceBufferStart with
            | some p =>
              if compiler.debugModeEnabled then [FreeEvent.sourceBuffer p] else []
            | none => []) ++ [FreeEvent.compilerObject]) := by
      simp [nwnnsscomp_destroy_compiler, hg]
    refine ⟨by rw [hd], ?_, by rw [hd]; rfl⟩
    intro c0 hc0
    have hcc : c0 = compiler := by
      simpa using hc0.symm
    subst hcc
    rw [hd]
    cases hs : c0.sourceBufferStart with
    | none =>
      simp [hs]
    | some p =>
      cases hdbg : c0.debugModeEnabled with
      | false => simp [hs, hdbg]
      | true =>
        simp [hs, hdbg]

/-- Witness for C7: a live instance in debug mode with a non-null source
buffer at pointer 42 — destroy frees the source buffer, empties the global,
and a second destroy does nothing. -/
theorem nwnnsscomp_destroy_compiler_spec_witness :
    (nwnnsscomp_destroy_compiler
      ⟨some ⟨some 42, true⟩⟩).1.gCurrentCompiler = none ∧
    ((∃ p, FreeEvent.sourceBuffer p ∈
        (nwnnsscomp_destroy_compiler ⟨some ⟨some 42, true⟩⟩).2) ↔
      ((⟨some 42, true⟩ : DestroyedCompiler).debugModeEnabled = true ∧
        (⟨some 42, true⟩ : DestroyedCompiler).sourceBufferStart ≠ none)) ∧
    nwnnsscomp_destroy_compiler
        (nwnnsscomp_destroy_compiler ⟨some ⟨some 42, true⟩⟩).1 =
      ((nwnnsscomp_destroy_compiler ⟨some ⟨some 42, true⟩⟩).1, []) := by
  obtain ⟨h1, h2, h3⟩ :=
    nwnnsscomp_destroy_compiler_spec ⟨some ⟨some 42, true⟩⟩
  exact ⟨h1, h2 ⟨some 42, true⟩ rfl, h3⟩

/-! ## Claims about finalization -/

/-- Counterexample for C8: with the second parameter equal to 0x82 (= 130)
and caller-supplied byte 0, the flag slot at `+0x1e0` is stamped with the
constant 1, not with the caller byte that slot `+0x1e1` (and the other slots)
receive — so not every stamped slot holds a copy of the one caller byte. -/
theorem nwnnsscomp_finalize_main_script_slot1E0_not_caller_byte :
    (nwnnsscomp_finalize_main_script finalizeSample 0 130 0).slot1E0 = 1 ∧
    (nwnnsscomp_finalize_main_script finalizeSample 0 130 0).slot1E1 = 0 ∧
    (nwnnsscomp_finalize_main_script finalizeSample 0 130 0).slot1E0 ≠
      (nwnnsscomp_finalize_main_script finalizeSample 0 130 0).slot1E1 := by
  refine ⟨?_, rfl, ?_⟩
  · show (if (130 : Int) < 0x82 then (0 : Int) else 1) = 1
    rw [if_neg (by norm_num)]
  · show (if (130 : Int) < 0x82 then (0 : Int) else 1) ≠ 0
    rw [if_neg (by norm_num)]
    norm_num

/-- Claim C8 (amended): `nwnnsscomp_finalize_main_script` initializes exactly
two 0x40000-byte (256KB) working regions, resets the four internal
symbol-table segments to all-zero fields, and stamps the flag slots `+0x1e1`
through `+0x1ea` with the single caller-supplied byte; the slot at `+0x1e0`
receives that byte only when the second parameter is (signed) less than 0x82
and the constant 1 otherwise. -/
theorem nwnnsscomp_finalize_main_script_spec :
    ∀ (c : FinalizeCompilerState) (param1 param2 param3 : Int),
      ((nwnnsscomp_finalize_main_script c param1 param2 param3).constantBuffer =
          nwnnsscomp_allocate_buffer 0x40000 ∧
        (nwnnsscomp_finalize_main_script c param1 param2 param3).funcTableBuffer =
          nwnnsscomp_allocate_buffer 0x40000 ∧
        (nwnnsscomp_finalize_main_script c param1 param2 param3).symSeg0F8 =
          ⟨0, 0, 0⟩ ∧
        (nwnnsscomp_finalize_main_script c param1 param2 param3).symSeg104 =
          ⟨0, 0, 0⟩ ∧
        (nwnnsscomp_finalize_main_script c param1 param2 param3).symSeg110 =
          ⟨0, 0, 0⟩ ∧
        (nwnnsscomp_finalize_main_script c param1 param2 param3).symSeg1D0 =
          ⟨0, 0, 0⟩) ∧
      ((nwnnsscomp_finalize_main_script c param1 param2 param3).slot1E1 = param3 ∧
        (nwnnsscomp_finalize_main_script c param1 param2 param3).slot1E2 = param3 ∧
        (nwnnsscomp_finalize_main_script c param1 param2 param3).slot1E3 = param3 ∧
        (nwnnsscomp_finalize_main_script c param1 param2 param3).slot1E4 = param3 ∧
        (nwnnsscomp_finalize_main_script c param1 param2 param3).slot1E5 = param3 ∧
        (nwnnsscomp_finalize_main_script c param1 param2 param3).slot1E6 = param3 ∧
        (nwnnsscomp_finalize_main_script c param1 param2 param3).slot1E7 = param3 ∧
        (nwnnsscomp_finalize_main_script c param1 param2 param3).slot1E8 = param3 ∧
        (nwnnsscomp_finalize_main_script c param1 param2 param3).slot1E9 = param3 ∧
        (nwnnsscomp_finalize_main_script c param1 param2 param3).slot1EA = param3) ∧
      ((param2 < 0x82 →
          (nwnnsscomp_finalize_main_script c param1 param2 param3).slot1E0 =
            param3) ∧
        (0x82 ≤ param2 →
          (nwnnsscomp_finalize_main_script c param1 param2 param3).slot1E0 = 1)) := by
  intro c param1 param2 param3
  refine ⟨⟨rfl, rfl, rfl, rfl, rfl, rfl⟩,
    ⟨rfl, rfl, rfl, rfl, rfl, rfl, rfl, rfl, rfl, rfl⟩, ?_, ?_⟩
  · intro h
    show (if param2 < 0x82 then param3 else 1) = param3
    rw [if_pos h]
  · intro h
    show (if param2 < 0x82 then param3 else 1) = 1
    rw [if_neg (not_lt.mpr h)]

/-- Witness for C8 (amended): caller byte 5 with second parameter 0 (below
0x82) stamps `+0x1e0` and `+0x1e1` with 5; second parameter 200 stamps
`+0x1e0` with 1; the first working region is a fresh 0x40000-byte buffer. -/
theorem nwnnsscomp_finalize_main_script_spec_witness :
    (nwnnsscomp_finalize_main_script finalizeSample 7 0 5).slot1E0 = 5 ∧
    (nwnnsscomp_finalize_main_script finalizeSample 7 200 5).slot1E0 = 1 ∧
    (nwnnsscomp_finalize_main_script finalizeSample 7 0 5).slot1E1 = 5 ∧
    (nwnnsscomp_finalize_main_script finalizeSample 7 0 5).constantBuffer =
      nwnnsscomp_allocate_buffer 0x40000 := by
  refine ⟨?_, ?_, ?_, ?_⟩
  · exact (nwnnsscomp_finalize_main_script_spec finalizeSample 7 0 5).2.2.1
      (by norm_num)
  · exact (nwnnsscomp_finalize_main_script_spec finalizeSample 7 200 5).2.2.2
      (by norm_num)
  · exact (nwnnsscomp_finalize_main_script_spec finalizeSample 7 0 5).2.1.1
  · exact (nwnnsscomp_finalize_main_script_spec finalizeSample 7 0 5).1.1
